import Mathlib

set_option maxRecDepth 4000

/-!
Verification of the InfraScope backend core (collection orchestrator,
utilization analyzer, recommendation engine, API clients, agent-report
ingestion) against its natural-language specification.

Shallow embedding conventions:
* Python `float` values are modelled as exact rationals (`ℚ`); Python's
  `round(x, n)` is modelled as rounding `10^n * x` to the nearest integer
  (tie behaviour is immaterial to every property proved here).
* Python `dict`s are modelled as association lists in insertion order;
  `dict.get` is `List.lookup`.
* Database tables are modelled as lists of records; SQL `DELETE ... WHERE p`
  is `List.filter (¬ p)`, inserts are appends.
* Timestamps are opaque rational parameters; auto-managed columns
  (`created_at` / `updated_at`) are omitted from record identity.
-/

/-- Python `round(x, 2)` modelled on `ℚ`: round `100 * x` to the nearest
integer and divide back. -/
def round2 (q : ℚ) : ℚ := ((round (100 * q) : ℤ) : ℚ) / 100

/-- Python `round(x, 4)` modelled on `ℚ` (used for network Mbps fields). -/
def round4 (q : ℚ) : ℚ := ((round (10000 * q) : ℤ) : ℚ) / 10000

/-- Python f-string `:.1f` formatting for the nonnegative rationals that
appear in rationale texts. -/
def toFixed1 (q : ℚ) : String :=
  let n := (round (10 * q)).toNat
  toString (n / 10) ++ "." ++ toString (n % 10)

/-- Python f-string `:.2f` formatting for the nonnegative rationals that
appear in rationale texts. -/
def toFixed2 (q : ℚ) : String :=
  let n := (round (100 * q)).toNat
  toString (n / 100) ++ "." ++ (if n % 100 < 10 then "0" else "") ++ toString (n % 100)

/-- Python `str.lower()` (ASCII, which covers every string the backend
lowercases): lowercase each character. -/
def str_toLower (s : String) : String := ⟨s.data.map Char.toLower⟩

/-- Python string slicing `s[:n]`: the first `n` characters. -/
def str_take (s : String) (n : Nat) : String := ⟨s.data.take n⟩

/-- Substring test on character lists (runs of consecutive characters). -/
def charsContain (needle : List Char) : List Char → Bool
  | [] => needle.isEmpty
  | c :: rest => needle.isPrefixOf (c :: rest) || charsContain needle rest

/-- `strContainsSub hay needle` is true iff `needle` occurs as a contiguous
substring of `hay`; models `re.search` of a literal alternative. -/
def strContainsSub (hay needle : String) : Bool :=
  charsContain needle.data hay.data

/-- `app/services/analyzer.py::classify_utilization` — the fixed threshold
ladder from 30-day mean CPU% to a utilization tier. -/
def classify_utilization (avg_cpu_30d : ℚ) : String :=
  if avg_cpu_30d < 5 then "idle"
  else if avg_cpu_30d < 20 then "low"
  else if avg_cpu_30d < 60 then "moderate"
  else if avg_cpu_30d < 85 then "high"
  else "critical"

namespace ServersRoute

/-- `app/routes/servers.py::_classify_utilization` — the route-local copy of
the tier classifier (textually identical threshold ladder). -/
def classify_utilization (avg_cpu_30d : ℚ) : String :=
  if avg_cpu_30d < 5 then "idle"
  else if avg_cpu_30d < 20 then "low"
  else if avg_cpu_30d < 60 then "moderate"
  else if avg_cpu_30d < 85 then "high"
  else "critical"

end ServersRoute

/-- Position of a tier name in the ladder `idle < low < moderate < high <
critical` (any unknown string is ranked 0; the classifier never produces
one). -/
def tierRank : String → Nat
  | "low" => 1
  | "moderate" => 2
  | "high" => 3
  | "critical" => 4
  | _ => 0

/-- C3: the tier classifier is a pure function of the mean CPU value alone
(it is a Lean function of that single argument, and the route-local copy
agrees with it everywhere), it realizes the fixed threshold ladder
(idle below 5, low on [5,20), moderate on [20,60), high on [60,85),
critical at or above 85), and it is monotone: a larger mean never yields a
strictly lower tier. -/
theorem c3_classify_ladder_monotone :
    (∀ m : ℚ, ServersRoute.classify_utilization m = classify_utilization m) ∧
    (∀ m : ℚ,
      (m < 5 → classify_utilization m = "idle") ∧
      (5 ≤ m → m < 20 → classify_utilization m = "low") ∧
      (20 ≤ m → m < 60 → classify_utilization m = "moderate") ∧
      (60 ≤ m → m < 85 → classify_utilization m = "high") ∧
      (85 ≤ m → classify_utilization m = "critical")) ∧
    (∀ m₁ m₂ : ℚ, m₁ ≤ m₂ →
      tierRank (classify_utilization m₁) ≤ tierRank (classify_utilization m₂)) := by
  refine ⟨fun m => rfl, fun m => ?_, fun m₁ m₂ h => ?_⟩
  · refine ⟨fun h => ?_, fun h₁ h₂ => ?_, fun h₁ h₂ => ?_, fun h₁ h₂ => ?_, fun h => ?_⟩ <;>
      simp only [classify_utilization] <;> split_ifs <;> first | rfl | linarith
  · simp only [classify_utilization]
    split_ifs <;> simp [tierRank] <;> linarith

/-- Witness for C3 at concrete inputs. -/
theorem c3_classify_ladder_monotone_witness :
    classify_utilization 2 = "idle" ∧
    classify_utilization 85 = "critical" ∧
    tierRank (classify_utilization 10) ≤ tierRank (classify_utilization 90) :=
  ⟨(c3_classify_ladder_monotone.2.1 2).1 (by norm_num),
   (c3_classify_ladder_monotone.2.1 85).2.2.2.2 (by norm_num),
   c3_classify_ladder_monotone.2.2 10 90 (by norm_num)⟩

/-! ## Data model (`app/models.py`) -/

/-- `models.py::ServerSource`. -/
inductive ServerSource
  | cloud
  | dedicated
deriving DecidableEq

/-- `models.py::Confidence`. -/
inductive Confidence
  | high
  | medium
  | low
deriving DecidableEq

/-- `models.py::RecommendationStatus`. -/
inductive RecommendationStatus
  | pending
  | accepted
  | dismissed
deriving DecidableEq

/-- `models.py::ServiceType`. -/
inductive ServiceType
  | docker
  | systemd
  | port
deriving DecidableEq

/-- `models.py::Server` (one inventory row; labels as an association list;
auto-managed `created_at`/`updated_at` columns omitted). -/
structure Server where
  id : Nat
  hetzner_id : String
  name : String
  server_type : String
  source : ServerSource
  status : String
  datacenter : String
  ipv4 : String
  cores : Int
  memory_gb : ℚ
  disk_gb : Int
  monthly_cost_eur : ℚ
  labels : List (String × String)
  project_name : Option String
  last_seen_at : ℚ
deriving DecidableEq

/-- `models.py::MetricSnapshot` (one utilization sample). -/
structure MetricSnapshot where
  server_id : Nat
  timestamp : ℚ
  cpu_percent : ℚ
  memory_percent : ℚ
  disk_percent : ℚ
  network_in_mbps : ℚ
  network_out_mbps : ℚ
  load_avg_1m : Option ℚ
deriving DecidableEq

/-- `models.py::RunningService` (one service row observed on a server). -/
structure RunningService where
  server_id : Nat
  service_type : ServiceType
  name : String
  port : Option Int
  status : String
  cpu_percent : Option ℚ
  memory_mb : Option ℚ
  discovered_at : ℚ
  last_seen_at : ℚ
deriving DecidableEq

/-- `models.py::ConsolidationRecommendation` (the `created_at` column, set to
the wall-clock at creation, is omitted from record identity). -/
structure ConsolidationRecommendation where
  group_name : String
  server_ids : List Nat
  target_server_type : String
  current_total_cost_eur : ℚ
  projected_cost_eur : ℚ
  monthly_savings_eur : ℚ
  rationale : String
  confidence : Confidence
  status : RecommendationStatus
deriving DecidableEq

/-- The per-server analysis dict produced by
`analyzer.py::analyze_server` / `analyze_all_servers`. -/
structure Analysis where
  server_id : Nat
  avg_cpu_30d : ℚ
  avg_memory_30d : ℚ
  peak_cpu_30d : ℚ
  peak_memory_30d : ℚ
  utilization_tier : String
deriving DecidableEq

/-! ## Recommendation engine (`app/services/recommender.py`) -/

/-- `recommender.py::PRICE_MAP` — Hetzner Cloud approximate pricing, in the
source dict's insertion order. -/
def PRICE_MAP : List (String × ℚ) :=
  [("cx11", 3.29), ("cx21", 5.39), ("cx31", 10.49), ("cx41", 17.49),
   ("cpx11", 3.85), ("cpx21", 7.19), ("cpx31", 13.49), ("cpx41", 24.49),
   ("ccx13", 12.49), ("ccx23", 22.49), ("ccx33", 42.49)]

/-- `recommender.py::DOWNGRADE_MAP` — current type to recommended smaller
type. -/
def DOWNGRADE_MAP : List (String × String) :=
  [("cx41", "cx31"), ("cx31", "cx21"), ("cx21", "cx11"),
   ("cpx41", "cpx31"), ("cpx31", "cpx21"), ("cpx21", "cpx11"),
   ("ccx33", "ccx23"), ("ccx23", "ccx13")]

/-- `recommender.py::_STAGING_PATTERN.search` — the case-insensitive regex
`(staging|dev|test)` applied with `re.search`, i.e. a case-insensitive
substring test for any of the three literals. -/
def stagingPatternMatch (s : String) : Bool :=
  let ls := str_toLower s
  strContainsSub ls "staging" || strContainsSub ls "dev" || strContainsSub ls "test"

/-- `recommender.py::_pick_target_type_for_combined_load` — the simplified
per-type core counts. -/
def type_cores : List (String × Nat) :=
  [("cx11", 1), ("cx21", 2), ("cx31", 4), ("cx41", 8),
   ("cpx11", 2), ("cpx21", 3), ("cpx31", 4), ("cpx41", 8),
   ("ccx13", 2), ("ccx23", 4), ("ccx33", 8)]

/-- Stable insertion by ascending price (second component). -/
def insertByPrice (x : String × ℚ) : List (String × ℚ) → List (String × ℚ)
  | [] => [x]
  | y :: ys => if x.2 ≤ y.2 then x :: y :: ys else y :: insertByPrice x ys

/-- `sorted(PRICE_MAP.items(), key=lambda x: x[1])` — stable sort by
ascending price. -/
def sortByPrice (l : List (String × ℚ)) : List (String × ℚ) :=
  l.foldr insertByPrice []

/-- The `target_cores` value computed inside
`recommender.py::_pick_target_type_for_combined_load`: combined peak CPU as
a fraction of the total original cores (`or 1` guards a zero sum), with
headroom to stay under 70%. -/
def target_cores_needed (combined_peak_cpu : ℚ) (servers : List Server) : ℚ :=
  let s := (servers.map (·.cores)).sum
  let total_original_cores : Int := if s = 0 then 1 else s
  let effective_cores_needed := combined_peak_cpu / 100 * (total_original_cores : ℚ)
  max (effective_cores_needed / 0.7) 1

/-- `recommender.py::_pick_target_type_for_combined_load` — cheapest catalog
type whose core count is at least `target_cores_needed`, else the last
(most expensive) candidate, else `"cx41"`. -/
def pick_target_type_for_combined_load (combined_peak_cpu : ℚ)
    (servers : List Server) : String :=
  match (sortByPrice PRICE_MAP).find? (fun tp =>
      target_cores_needed combined_peak_cpu servers ≤ ((type_cores.lookup tp.1).getD 1 : ℚ)) with
  | some tp => tp.1
  | none =>
    match (sortByPrice PRICE_MAP).getLast? with
    | some tp => tp.1
    | none => "cx41"

/-- `recommender.py::_find_idle_servers` — Rule 1: for each analyzed server
whose tier is idle, that is present, running, and has positive monthly
cost, recommend the mapped downgrade (savings = cost minus the smaller
type's catalog price) or, with no known smaller type, a full
consolidation/shutdown review (savings = the full cost). -/
def find_idle_servers (server_by_id : List (Nat × Server))
    (analysis_by_id : List (Nat × Analysis)) : List ConsolidationRecommendation :=
  analysis_by_id.filterMap (fun sa =>
    let analysis := sa.2
    if analysis.utilization_tier ≠ "idle" then none
    else
      match server_by_id.lookup sa.1 with
      | none => none
      | some server =>
        if server.status ≠ "running" then none
        else if server.monthly_cost_eur ≤ 0 then none
        else
          let monthly_cost := server.monthly_cost_eur
          let current_type := str_toLower server.server_type
          match DOWNGRADE_MAP.lookup current_type with
          | some smaller_type =>
            let target_cost := (PRICE_MAP.lookup smaller_type).getD 0
            let savings := monthly_cost - target_cost
            some
              { group_name := "Underutilized: " ++ server.name
                server_ids := [server.id]
                target_server_type := smaller_type
                current_total_cost_eur := monthly_cost
                projected_cost_eur := target_cost
                monthly_savings_eur := savings
                rationale :=
                  "This server is barely using its resources — averaging just "
                    ++ toFixed1 analysis.avg_cpu_30d ++ "% CPU over 30 days (peak "
                    ++ toFixed1 analysis.peak_cpu_30d ++ "%). Downgrading from "
                    ++ server.server_type ++ " to " ++ smaller_type ++ " would save EUR "
                    ++ toFixed2 savings ++ "/mo. Alternatively, its workloads could "
                    ++ "be consolidated onto another server to free up this instance entirely."
                confidence := Confidence.high
                status := RecommendationStatus.pending }
          | none =>
            some
              { group_name := "Underutilized: " ++ server.name
                server_ids := [server.id]
                target_server_type := "downsize / consolidate"
                current_total_cost_eur := monthly_cost
                projected_cost_eur := 0
                monthly_savings_eur := monthly_cost
                rationale :=
                  "This server is barely using its resources — averaging just "
                    ++ toFixed1 analysis.avg_cpu_30d ++ "% CPU over 30 days (peak "
                    ++ toFixed1 analysis.peak_cpu_30d ++ "%). Its workloads could likely "
                    ++ "be consolidated onto another server, saving the full EUR "
                    ++ toFixed2 monthly_cost ++ "/mo. Review what\x27s running on it "
                    ++ "to decide the best path."
                confidence := Confidence.high
                status := RecommendationStatus.pending })

/-- The `staging_servers` list built inside
`recommender.py::_find_staging_consolidation`: running servers whose name,
project, or any label value matches the staging/dev/test pattern. -/
def staging_servers (server_by_id : List (Nat × Server)) : List Server :=
  (server_by_id.map Prod.snd).filter (fun server =>
    server.status == "running" &&
      (stagingPatternMatch server.name
        || stagingPatternMatch (server.project_name.getD "")
        || server.labels.any (fun kv => stagingPatternMatch kv.2)))

/-- The `total_cost` of the staging group in
`recommender.py::_find_staging_consolidation`. -/
def staging_total_cost (server_by_id : List (Nat × Server)) : ℚ :=
  ((staging_servers server_by_id).map (·.monthly_cost_eur)).sum

/-- The `combined_peak_cpu` of the staging group in
`recommender.py::_find_staging_consolidation` (peak 0 for servers with no
analysis entry). -/
def staging_combined_peak (server_by_id : List (Nat × Server))
    (analysis_by_id : List (Nat × Analysis)) : ℚ :=
  ((staging_servers server_by_id).map (fun s =>
    ((analysis_by_id.lookup s.id).map (·.peak_cpu_30d)).getD 0)).sum

/-- `recommender.py::_find_staging_consolidation` — Rule 2: merge at least
two running staging/dev/test servers onto one right-sized instance; skip
when computed savings are not positive. -/
def find_staging_consolidation (server_by_id : List (Nat × Server))
    (analysis_by_id : List (Nat × Analysis)) : List ConsolidationRecommendation :=
  let staging := staging_servers server_by_id
  if staging.length < 2 then []
  else
    let total_cost := staging_total_cost server_by_id
    let server_ids := staging.map (·.id)
    let combined_peak_cpu := staging_combined_peak server_by_id analysis_by_id
    let target_type := pick_target_type_for_combined_load combined_peak_cpu staging
    let target_cost := (PRICE_MAP.lookup target_type).getD (total_cost * 0.5)
    let savings := max (total_cost - target_cost) 0
    if savings ≤ 0 then []
    else
      [{ group_name := "Staging/dev server consolidation"
         server_ids := server_ids
         target_server_type := target_type
         current_total_cost_eur := round2 total_cost
         projected_cost_eur := round2 target_cost
         monthly_savings_eur := round2 savings
         rationale :=
           "These non-production servers ("
             ++ String.intercalate ", " (staging.map (·.name))
             ++ ") cost a combined EUR " ++ toFixed2 total_cost
             ++ "/mo but their total peak CPU is only " ++ toFixed1 combined_peak_cpu
             ++ "%. They could share a single " ++ target_type
             ++ " (EUR " ++ toFixed2 target_cost
             ++ "/mo) with room to spare, saving EUR " ++ toFixed2 savings ++ "/mo."
         confidence := Confidence.medium
         status := RecommendationStatus.pending }]

/-- `recommender.py::_find_rightsizing_candidates` — Rule 3: running,
non-idle servers whose 30-day peak CPU stays below 30% and which have a
known smaller type are downgrade candidates; skip when savings are not
positive. -/
def find_rightsizing_candidates (server_by_id : List (Nat × Server))
    (analysis_by_id : List (Nat × Analysis)) : List ConsolidationRecommendation :=
  analysis_by_id.filterMap (fun sa =>
    let analysis := sa.2
    let peak_cpu := analysis.peak_cpu_30d
    if 30 ≤ peak_cpu then none
    else if analysis.utilization_tier = "idle" then none
    else
      match server_by_id.lookup sa.1 with
      | none => none
      | some server =>
        if server.status ≠ "running" then none
        else
          let current_type := str_toLower server.server_type
          match DOWNGRADE_MAP.lookup current_type with
          | none => none
          | some smaller_type =>
            let current_cost :=
              if server.monthly_cost_eur ≤ 0 then (PRICE_MAP.lookup current_type).getD 0
              else server.monthly_cost_eur
            let target_cost := (PRICE_MAP.lookup smaller_type).getD current_cost
            let savings := current_cost - target_cost
            if savings ≤ 0 then none
            else
              some
                { group_name := "Right-size: " ++ server.name
                  server_ids := [server.id]
                  target_server_type := smaller_type
                  current_total_cost_eur := round2 current_cost
                  projected_cost_eur := round2 target_cost
                  monthly_savings_eur := round2 savings
                  rationale :=
                    "\x27" ++ server.name ++ "\x27 peaks at only " ++ toFixed1 peak_cpu
                      ++ "% CPU (avg " ++ toFixed1 analysis.avg_cpu_30d ++ "%) on a "
                      ++ current_type ++ ". A " ++ smaller_type
                      ++ " can comfortably handle this workload and would save EUR "
                      ++ toFixed2 savings ++ "/mo while still leaving "
                      ++ "plenty of headroom for traffic spikes."
                  confidence := Confidence.medium
                  status := RecommendationStatus.pending })

/-- The `new_recs` list built by `recommender.py::generate_recommendations`:
the three rules applied in fixed order to the same inventory and analysis
maps. -/
def generate_new_recommendations (server_by_id : List (Nat × Server))
    (analysis_by_id : List (Nat × Analysis)) : List ConsolidationRecommendation :=
  find_idle_servers server_by_id analysis_by_id
    ++ find_staging_consolidation server_by_id analysis_by_id
    ++ find_rightsizing_candidates server_by_id analysis_by_id

/-- `recommender.py::generate_recommendations` acting on the
recommendation store: delete rows whose status is `pending`, insert the
freshly generated rows, and return (new rows, resulting store). -/
def generate_recommendations (store : List ConsolidationRecommendation)
    (server_by_id : List (Nat × Server)) (analysis_by_id : List (Nat × Analysis)) :
    List ConsolidationRecommendation × List ConsolidationRecommendation :=
  let new_recs := generate_new_recommendations server_by_id analysis_by_id
  (new_recs,
   store.filter (fun r => r.status ≠ RecommendationStatus.pending) ++ new_recs)

/-! ## Helper lemmas: two-decimal rounding, association-list lookup,
sorted candidate lists -/

/-- Rounding to the nearest integer is monotone on `ℚ`. -/
theorem round_mono_q {x y : ℚ} (h : x ≤ y) : round x ≤ round y := by
  rw [round_eq, round_eq]
  exact Int.floor_le_floor (by linarith)

/-- `round2` preserves nonnegativity. -/
theorem round2_nonneg {q : ℚ} (h : 0 ≤ q) : 0 ≤ round2 q := by
  unfold round2
  have h1 : round (0 : ℚ) ≤ round (100 * q) := round_mono_q (by linarith)
  rw [round_zero] at h1
  have h2 : (0 : ℚ) ≤ ((round (100 * q) : ℤ) : ℚ) := by exact_mod_cast h1
  linarith

/-- `round2` never pushes a value that is at most 100 above 100. -/
theorem round2_le_100 {q : ℚ} (h : q ≤ 100) : round2 q ≤ 100 := by
  unfold round2
  have h1 : round (100 * q) ≤ round ((10000 : ℤ) : ℚ) := round_mono_q (by push_cast; linarith)
  rw [round_intCast] at h1
  have h2 : ((round (100 * q) : ℤ) : ℚ) ≤ 10000 := by exact_mod_cast h1
  linarith

/-- Subtracting an exact multiple of one cent commutes with `round2`. -/
theorem round2_sub_cent (x : ℚ) (n : ℤ) :
    round2 (x - (n : ℚ) / 100) = round2 x - (n : ℚ) / 100 := by
  unfold round2
  have h : (100 : ℚ) * (x - (n : ℚ) / 100) = 100 * x - (n : ℤ) := by ring
  rw [h, round_sub_int]
  push_cast
  ring

/-- `round2` fixes exact multiples of one cent. -/
theorem round2_cent (n : ℤ) : round2 ((n : ℚ) / 100) = (n : ℚ) / 100 := by
  unfold round2
  have h : (100 : ℚ) * ((n : ℚ) / 100) = (n : ℤ) := by ring
  rw [h, round_intCast]

/-- A successful association-list lookup yields a member pair. -/
theorem lookup_mem {α β : Type} [BEq α] [LawfulBEq α] {l : List (α × β)} {k : α} {v : β}
    (h : l.lookup k = some v) : (k, v) ∈ l := by
  induction l with
  | nil => simp [List.lookup] at h
  | cons p t ih =>
    obtain ⟨pk, pv⟩ := p
    rw [List.lookup] at h
    cases hkp : (k == pk) with
    | false =>
      rw [hkp] at h
      exact List.mem_cons.2 (Or.inr (ih h))
    | true =>
      rw [hkp] at h
      cases h
      have hk : k = pk := eq_of_beq hkp
      subst hk
      exact List.mem_cons.2 (Or.inl rfl)

/-- In a list sorted by ascending price, `find?` returns an element of
minimal price among those satisfying the predicate. -/
theorem find?_min_of_sorted {l : List (String × ℚ)} {p : String × ℚ → Bool} {x : String × ℚ}
    (hs : l.Pairwise (fun a b => a.2 ≤ b.2)) (hx : l.find? p = some x) :
    ∀ y ∈ l, p y = true → x.2 ≤ y.2 := by
  induction l with
  | nil => simp at hx
  | cons a t ih =>
    obtain ⟨ha, ht⟩ := List.pairwise_cons.1 hs
    intro y hy hpy
    cases hpa : p a with
    | true =>
      rw [List.find?_cons_of_pos _ hpa] at hx
      cases hx
      rcases List.mem_cons.1 hy with hya | hyt
      · subst hya; exact le_refl _
      · exact ha y hyt
    | false =>
      rw [List.find?_cons_of_neg _ (by simp [hpa])] at hx
      rcases List.mem_cons.1 hy with hya | hyt
      · subst hya; rw [hpa] at hpy; cases hpy
      · exact ih ht hx y hyt hpy

/-- The concrete result of sorting `PRICE_MAP` by ascending price. -/
def sortedPRICE : List (String × ℚ) :=
  [("cx11", 3.29), ("cpx11", 3.85), ("cx21", 5.39), ("cpx21", 7.19),
   ("cx31", 10.49), ("ccx13", 12.49), ("cpx31", 13.49), ("cx41", 17.49),
   ("ccx23", 22.49), ("cpx41", 24.49), ("ccx33", 42.49)]

theorem sortByPrice_PRICE_MAP : sortByPrice PRICE_MAP = sortedPRICE := by
  norm_num [sortByPrice, PRICE_MAP, sortedPRICE, insertByPrice]

theorem sortedPRICE_pairwise : sortedPRICE.Pairwise (fun a b => a.2 ≤ b.2) := by
  norm_num [sortedPRICE, List.pairwise_cons]

theorem sortedPRICE_lookup :
    ∀ tp ∈ sortedPRICE, PRICE_MAP.lookup tp.1 = some tp.2 ∧
      ∃ n : ℤ, tp.2 = (n : ℚ) / 100 := by
  intro tp h
  simp only [sortedPRICE] at h
  fin_cases h
  · exact ⟨by simp +decide [PRICE_MAP, List.lookup], 329, by norm_num⟩
  · exact ⟨by simp +decide [PRICE_MAP, List.lookup], 385, by norm_num⟩
  · exact ⟨by simp +decide [PRICE_MAP, List.lookup], 539, by norm_num⟩
  · exact ⟨by simp +decide [PRICE_MAP, List.lookup], 719, by norm_num⟩
  · exact ⟨by simp +decide [PRICE_MAP, List.lookup], 1049, by norm_num⟩
  · exact ⟨by simp +decide [PRICE_MAP, List.lookup], 1249, by norm_num⟩
  · exact ⟨by simp +decide [PRICE_MAP, List.lookup], 1349, by norm_num⟩
  · exact ⟨by simp +decide [PRICE_MAP, List.lookup], 1749, by norm_num⟩
  · exact ⟨by simp +decide [PRICE_MAP, List.lookup], 2249, by norm_num⟩
  · exact ⟨by simp +decide [PRICE_MAP, List.lookup], 2449, by norm_num⟩
  · exact ⟨by simp +decide [PRICE_MAP, List.lookup], 4249, by norm_num⟩

/-- Every downgrade target appearing in `DOWNGRADE_MAP` has a catalog price,
an exact multiple of one cent. -/
theorem downgrade_target_price {ct st : String} (h : DOWNGRADE_MAP.lookup ct = some st) :
    ∃ q : ℚ, PRICE_MAP.lookup st = some q ∧ ∃ n : ℤ, q = (n : ℚ) / 100 := by
  have hmem : (ct, st) ∈ DOWNGRADE_MAP := lookup_mem h
  simp only [DOWNGRADE_MAP] at hmem
  fin_cases hmem
  · exact ⟨10.49, by simp +decide [PRICE_MAP, List.lookup], 1049, by norm_num⟩
  · exact ⟨5.39, by simp +decide [PRICE_MAP, List.lookup], 539, by norm_num⟩
  · exact ⟨3.29, by simp +decide [PRICE_MAP, List.lookup], 329, by norm_num⟩
  · exact ⟨13.49, by simp +decide [PRICE_MAP, List.lookup], 1349, by norm_num⟩
  · exact ⟨7.19, by simp +decide [PRICE_MAP, List.lookup], 719, by norm_num⟩
  · exact ⟨3.85, by simp +decide [PRICE_MAP, List.lookup], 385, by norm_num⟩
  · exact ⟨22.49, by simp +decide [PRICE_MAP, List.lookup], 2249, by norm_num⟩
  · exact ⟨12.49, by simp +decide [PRICE_MAP, List.lookup], 1249, by norm_num⟩

/-- The target type chosen for a staging consolidation always has a catalog
price, an exact multiple of one cent. -/
theorem pick_target_lookup (c : ℚ) (ss : List Server) :
    ∃ q : ℚ, PRICE_MAP.lookup (pick_target_type_for_combined_load c ss) = some q ∧
      ∃ n : ℤ, q = (n : ℚ) / 100 := by
  unfold pick_target_type_for_combined_load
  rcases hf : (sortByPrice PRICE_MAP).find? (fun tp =>
      target_cores_needed c ss ≤ ((type_cores.lookup tp.1).getD 1 : ℚ)) with _ | tp
  · rw [hf, sortByPrice_PRICE_MAP]
    have hlast : sortedPRICE.getLast? = some ("ccx33", (42.49 : ℚ)) := by
      norm_num [sortedPRICE, List.getLast?]
    rw [hlast]
    exact ⟨42.49, by simp +decide [PRICE_MAP, List.lookup], 4249, by norm_num⟩
  · rw [hf]
    have hmem := List.mem_of_find?_eq_some hf
    rw [sortByPrice_PRICE_MAP] at hmem
    exact ⟨tp.2, (sortedPRICE_lookup tp hmem).1, (sortedPRICE_lookup tp hmem).2⟩

/-- Inversion for Rule 1: every emitted idle-server recommendation is
pending, high-confidence, has savings equal to current minus projected
cost, and its projected cost is either the downgrade target's catalog
price or zero, for a looked-up server with positive monthly cost. -/
theorem find_idle_mem {sbid : List (Nat × Server)} {abid : List (Nat × Analysis)}
    {r : ConsolidationRecommendation} (hr : r ∈ find_idle_servers sbid abid) :
    r.status = RecommendationStatus.pending ∧
    r.confidence = Confidence.high ∧
    r.monthly_savings_eur = r.current_total_cost_eur - r.projected_cost_eur ∧
    ∃ sid server, sbid.lookup sid = some server ∧
      r.current_total_cost_eur = server.monthly_cost_eur ∧
      0 < server.monthly_cost_eur ∧
      ((∃ smaller_type,
          DOWNGRADE_MAP.lookup (str_toLower server.server_type) = some smaller_type ∧
          r.projected_cost_eur = (PRICE_MAP.lookup smaller_type).getD 0) ∨
        (DOWNGRADE_MAP.lookup (str_toLower server.server_type) = none ∧
          r.projected_cost_eur = 0)) := by
  simp only [find_idle_servers, List.mem_filterMap] at hr
  obtain ⟨sa, hsa, hfa⟩ := hr
  split at hfa
  · simp at hfa
  · split at hfa
    · simp at hfa
    · next server hlk =>
      split at hfa
      · simp at hfa
      · split at hfa
        · simp at hfa
        · next hcost =>
          split at hfa
          · next smaller_type hdg =>
            injection hfa with h
            subst h
            exact ⟨rfl, rfl, rfl, sa.1, server, hlk, rfl, not_le.1 hcost,
              Or.inl ⟨smaller_type, hdg, rfl⟩⟩
          · next hdg =>
            refine ⟨?_, ?_, ?_, sa.1, server, hlk, ?_, not_le.1 hcost, Or.inr ⟨hdg, ?_⟩⟩ <;>
              (injection hfa with h; subst h; simp)

/-- Inversion for Rule 3: every emitted right-sizing recommendation is
pending, medium-confidence, has savings equal to current minus projected
cost, and its savings are nonnegative. -/
theorem find_rightsizing_mem {sbid : List (Nat × Server)} {abid : List (Nat × Analysis)}
    {r : ConsolidationRecommendation} (hr : r ∈ find_rightsizing_candidates sbid abid) :
    r.status = RecommendationStatus.pending ∧
    r.confidence = Confidence.medium ∧
    r.monthly_savings_eur = r.current_total_cost_eur - r.projected_cost_eur ∧
    0 ≤ r.monthly_savings_eur := by
  simp only [find_rightsizing_candidates, List.mem_filterMap] at hr
  obtain ⟨sa, hsa, hfa⟩ := hr
  split at hfa
  · simp at hfa
  · split at hfa
    · simp at hfa
    · split at hfa
      · simp at hfa
      · next server hlk =>
        split at hfa
        · simp at hfa
        · split at hfa
          · simp at hfa
          · next smaller_type hdg =>
            generalize hC :
              (if server.monthly_cost_eur ≤ 0
                then (PRICE_MAP.lookup (str_toLower server.server_type)).getD 0
                else server.monthly_cost_eur) = C at hfa
            split at hfa
            · simp at hfa
            · next hsav =>
              injection hfa with h
              subst h
              obtain ⟨q, hq, n, hn⟩ := downgrade_target_price hdg
              subst hn
              simp only [hq, Option.getD_some] at hsav
              refine ⟨rfl, rfl, ?_, ?_⟩
              · simp only [hq, Option.getD_some, round2_sub_cent, round2_cent]
              · simp only [hq, Option.getD_some]
                exact round2_nonneg (le_of_lt (not_le.1 hsav))

/-- Inversion for Rule 2: every emitted staging-consolidation
recommendation is pending, medium-confidence, has savings equal to current
minus projected cost, and its savings are nonnegative. -/
theorem find_staging_mem {sbid : List (Nat × Server)} {abid : List (Nat × Analysis)}
    {r : ConsolidationRecommendation} (hr : r ∈ find_staging_consolidation sbid abid) :
    r.status = RecommendationStatus.pending ∧
    r.confidence = Confidence.medium ∧
    r.monthly_savings_eur = r.current_total_cost_eur - r.projected_cost_eur ∧
    0 ≤ r.monthly_savings_eur := by
  simp only [find_staging_consolidation] at hr
  split at hr
  · simp at hr
  · split at hr
    · simp at hr
    · next hsav =>
      simp only [List.mem_singleton] at hr
      subst hr
      obtain ⟨q, hq, n, hn⟩ :=
        pick_target_lookup
          (staging_combined_peak sbid abid) (staging_servers sbid)
      subst hn
      simp only [hq, Option.getD_some] at hsav
      have h0 : 0 < staging_total_cost sbid - (n : ℚ) / 100 := by
        by_contra hle
        have hle2 : staging_total_cost sbid - (n : ℚ) / 100 ≤ 0 := not_lt.1 hle
        exact hsav (by simp [max_le_iff, hle2])
      have hmax : max (staging_total_cost sbid - (n : ℚ) / 100) 0 =
          staging_total_cost sbid - (n : ℚ) / 100 :=
        max_eq_left (le_of_lt h0)
      refine ⟨rfl, rfl, ?_, ?_⟩
      · simp only [hq, Option.getD_some, hmax, round2_sub_cent, round2_cent]
      · simp only [hq, Option.getD_some]
        exact round2_nonneg (le_max_right _ 0)

/-! ## Concrete examples -/

/-- A running cloud server of type cx41 costing 17.49/mo (the spec's idle
rule example). -/
def ex_idle_server : Server :=
  { id := 1, hetzner_id := "1001", name := "api-main", server_type := "cx41",
    source := ServerSource.cloud, status := "running", datacenter := "fsn1-dc14",
    ipv4 := "10.0.0.1", cores := 8, memory_gb := 16, disk_gb := 160,
    monthly_cost_eur := 17.49, labels := [], project_name := none, last_seen_at := 0 }

/-- Its 30-day analysis: average CPU 2%, peak 4%, hence tier idle. -/
def ex_idle_analysis : Analysis :=
  { server_id := 1, avg_cpu_30d := 2, avg_memory_30d := 10,
    peak_cpu_30d := 4, peak_memory_30d := 12,
    utilization_tier := classify_utilization 2 }

/-- The recommendation the idle rule produces for `ex_idle_server`. -/
def ex_idle_rec : ConsolidationRecommendation :=
  { group_name := "Underutilized: api-main", server_ids := [1],
    target_server_type := "cx31",
    current_total_cost_eur := 17.49, projected_cost_eur := 10.49,
    monthly_savings_eur := 17.49 - 10.49,
    rationale :=
      "This server is barely using its resources — averaging just 2.0% CPU "
        ++ "over 30 days (peak 4.0%). Downgrading from cx41 to cx31 would save "
        ++ "EUR 7.00/mo. Alternatively, its workloads could be consolidated "
        ++ "onto another server to free up this instance entirely."
    confidence := Confidence.high, status := RecommendationStatus.pending }

theorem find_idle_eval_example :
    find_idle_servers [(1, ex_idle_server)] [(1, ex_idle_analysis)] = [ex_idle_rec] := by
  have hlow : str_toLower "cx41" = "cx41" := by decide
  have hdg : DOWNGRADE_MAP.lookup "cx41" = some "cx31" := by decide
  have hpm : PRICE_MAP.lookup "cx31" = some (10.49 : ℚ) := by
    simp +decide [PRICE_MAP, List.lookup]
  have htier : classify_utilization 2 = "idle" := by norm_num [classify_utilization]
  have hf1 : toFixed1 2 = "2.0" := by with_unfolding_all decide
  have hf2 : toFixed1 4 = "4.0" := by with_unfolding_all decide
  have hf3 : toFixed2 7 = "7.00" := by with_unfolding_all decide
  have hsb : List.lookup 1 [(1, ex_idle_server)] = some ex_idle_server := rfl
  norm_num [find_idle_servers, List.filterMap_cons, List.filterMap_nil,
    ex_idle_analysis, ex_idle_server, ex_idle_rec, htier, hlow, hdg, hpm, hsb,
    hf1, hf2, hf3, ConsolidationRecommendation.mk.injEq]
  decide

/-- Upper bound on the size of the staging group. -/
theorem staging_servers_length_le (sbid : List (Nat × Server)) :
    (staging_servers sbid).length ≤ sbid.length := by
  unfold staging_servers
  calc (List.filter _ (sbid.map Prod.snd)).length
      ≤ (sbid.map Prod.snd).length := List.length_filter_le _ _
    _ = sbid.length := List.length_map _ _

/-- The idle-rule example server, made cheap: its monthly cost (5.00) is
below the catalog price of its downgrade target cx31 (10.49). -/
def c1_cheap_server : Server := { ex_idle_server with monthly_cost_eur := 5 }

/-- C1 counterexample: an idle, running cx41 server costing 5.00/mo makes a
generation cycle create a recommendation whose monthly savings,
5 − 10.49 = −5.49, is negative, refuting the claim that savings are always
nonnegative at creation. -/
theorem c1_savings_counterexample :
    ((generate_new_recommendations [(1, c1_cheap_server)] [(1, ex_idle_analysis)]).map
        (fun r => r.monthly_savings_eur)) = [5 - 10.49] ∧ ¬ (0 : ℚ) ≤ 5 - 10.49 := by
  constructor
  · have h2 : find_staging_consolidation [(1, c1_cheap_server)] [(1, ex_idle_analysis)] = [] := by
      simp only [find_staging_consolidation]
      rw [if_pos ?_]
      have hle := staging_servers_length_le [(1, c1_cheap_server)]
      simp only [List.length_cons, List.length_nil] at hle
      omega
    have h3 : find_rightsizing_candidates [(1, c1_cheap_server)] [(1, ex_idle_analysis)] = [] := by
      have htier : classify_utilization 2 = "idle" := by norm_num [classify_utilization]
      norm_num [find_rightsizing_candidates, List.filterMap_cons, List.filterMap_nil,
        ex_idle_analysis, htier]
    have h1 : (find_idle_servers [(1, c1_cheap_server)] [(1, ex_idle_analysis)]).map
        (fun r => r.monthly_savings_eur) = [5 - 10.49] := by
      have hlow : str_toLower "cx41" = "cx41" := by decide
      have hdg : DOWNGRADE_MAP.lookup "cx41" = some "cx31" := by decide
      have hpm : PRICE_MAP.lookup "cx31" = some (10.49 : ℚ) := by
        simp +decide [PRICE_MAP, List.lookup]
      have htier : classify_utilization 2 = "idle" := by norm_num [classify_utilization]
      have hsb : List.lookup 1 [(1, c1_cheap_server)] = some c1_cheap_server := rfl
      norm_num [find_idle_servers, List.filterMap_cons, List.filterMap_nil,
        ex_idle_analysis, c1_cheap_server, ex_idle_server, htier, hlow, hdg, hpm, hsb]
    simp only [generate_new_recommendations, List.map_append, h2, h3, h1,
      List.map_nil, List.append_nil]
  · norm_num

/-- C1 (amended): at creation, every recommendation's monthly savings equal
its current total monthly cost minus its projected monthly cost; savings
are nonnegative for the staging-consolidation and right-sizing rules
unconditionally, and for the idle rule whenever each server's monthly cost
is at least the catalog price of its downgrade target (the idle rule's
downgrade branch subtracts that price without clamping, so a server priced
below its target yields negative savings — see the counterexample). -/
theorem c1_savings_amended (sbid : List (Nat × Server)) (abid : List (Nat × Analysis)) :
    (∀ r ∈ generate_new_recommendations sbid abid,
        r.monthly_savings_eur = r.current_total_cost_eur - r.projected_cost_eur) ∧
    (∀ r ∈ find_staging_consolidation sbid abid, 0 ≤ r.monthly_savings_eur) ∧
    (∀ r ∈ find_rightsizing_candidates sbid abid, 0 ≤ r.monthly_savings_eur) ∧
    ((∀ p ∈ sbid, ∀ t ∈ DOWNGRADE_MAP.lookup (str_toLower p.2.server_type),
        (PRICE_MAP.lookup t).getD 0 ≤ p.2.monthly_cost_eur) →
      ∀ r ∈ find_idle_servers sbid abid, 0 ≤ r.monthly_savings_eur) := by
  refine ⟨?_, ?_, ?_, ?_⟩
  · intro r hr
    rcases List.mem_append.1 hr with h | h
    · rcases List.mem_append.1 h with h | h
      · exact (find_idle_mem h).2.2.1
      · exact (find_staging_mem h).2.2.1
    · exact (find_rightsizing_mem h).2.2.1
  · intro r hr
    exact (find_staging_mem hr).2.2.2
  · intro r hr
    exact (find_rightsizing_mem hr).2.2.2
  · intro hyp r hr
    obtain ⟨-, -, heq, sid, server, hlk, hcur, hpos, hcases⟩ := find_idle_mem hr
    rcases hcases with ⟨st, hdg, hproj⟩ | ⟨hdg, hproj⟩
    · have hle := hyp (sid, server) (lookup_mem hlk) st (Option.mem_def.2 hdg)
      rw [heq, hcur, hproj]
      linarith
    · rw [heq, hcur, hproj]
      linarith

/-- Witness for the amended C1 at the concrete idle example (cost 17.49,
downgrade target price 10.49): its generated savings are nonnegative. -/
theorem c1_savings_amended_witness : 0 ≤ ex_idle_rec.monthly_savings_eur := by
  refine (c1_savings_amended [(1, ex_idle_server)] [(1, ex_idle_analysis)]).2.2.2
    ?_ ex_idle_rec ?_
  · intro p hp t ht
    have hp1 : p = (1, ex_idle_server) := List.mem_singleton.1 hp
    subst hp1
    have hdg : DOWNGRADE_MAP.lookup (str_toLower (1, ex_idle_server).2.server_type) =
        some "cx31" := by decide
    rw [hdg] at ht
    have ht1 : t = "cx31" := Eq.symm (by simpa using ht)
    subst ht1
    have hpm : PRICE_MAP.lookup "cx31" = some (10.49 : ℚ) := by
      simp +decide [PRICE_MAP, List.lookup]
    rw [hpm]
    norm_num [ex_idle_server]
  · rw [find_idle_eval_example]
    exact List.mem_singleton.2 rfl

/-- C2: a generation cycle rewrites the store by deleting exactly the
rows whose status is pending and appending the freshly generated rows (all
of which are pending); rows with status accepted or dismissed are carried
over unchanged; and running the cycle twice over the same inventory and
analysis yields exactly the same store as running it once. -/
theorem c2_generate_pending_semantics (store : List ConsolidationRecommendation)
    (sbid : List (Nat × Server)) (abid : List (Nat × Analysis)) :
    ((generate_recommendations store sbid abid).2 =
        store.filter (fun r => r.status ≠ RecommendationStatus.pending)
          ++ (generate_recommendations store sbid abid).1) ∧
    (∀ r ∈ (generate_recommendations store sbid abid).1,
        r.status = RecommendationStatus.pending) ∧
    ((generate_recommendations store sbid abid).2.filter
        (fun r => r.status = RecommendationStatus.accepted) =
      store.filter (fun r => r.status = RecommendationStatus.accepted)) ∧
    ((generate_recommendations store sbid abid).2.filter
        (fun r => r.status = RecommendationStatus.dismissed) =
      store.filter (fun r => r.status = RecommendationStatus.dismissed)) ∧
    ((generate_recommendations
        (generate_recommendations store sbid abid).2 sbid abid).2 =
      (generate_recommendations store sbid abid).2) := by
  have hpend : ∀ r ∈ generate_new_recommendations sbid abid,
      r.status = RecommendationStatus.pending := by
    intro r hr
    rcases List.mem_append.1 hr with h | h
    · rcases List.mem_append.1 h with h | h
      · exact (find_idle_mem h).1
      · exact (find_staging_mem h).1
    · exact (find_rightsizing_mem h).1
  have hnewkeep : ∀ (q : RecommendationStatus), q ≠ RecommendationStatus.pending →
      (generate_new_recommendations sbid abid).filter (fun r => r.status = q) = [] := by
    intro q hq
    rw [List.filter_eq_nil_iff]
    intro a ha
    simp [hpend a ha, Ne.symm hq]
  have hfilter2 : ∀ (q : RecommendationStatus), q ≠ RecommendationStatus.pending →
      ∀ l : List ConsolidationRecommendation,
      (l.filter (fun r => r.status ≠ RecommendationStatus.pending)).filter
          (fun r => r.status = q) =
        l.filter (fun r => r.status = q) := by
    intro q hq l
    rw [List.filter_filter]
    refine List.filter_congr ?_
    intro a _
    by_cases ha : a.status = q
    · simp [ha, hq]
    · simp [ha]
  have hsplit : ∀ (q : RecommendationStatus), q ≠ RecommendationStatus.pending →
      (generate_recommendations store sbid abid).2.filter (fun r => r.status = q) =
        store.filter (fun r => r.status = q) := by
    intro q hq
    simp only [generate_recommendations, List.filter_append]
    rw [hnewkeep q hq, List.append_nil, hfilter2 q hq]
  refine ⟨rfl, hpend, hsplit _ (by simp), hsplit _ (by simp), ?_⟩
  have hnp : (generate_new_recommendations sbid abid).filter
      (fun r => r.status ≠ RecommendationStatus.pending) = [] := by
    rw [List.filter_eq_nil_iff]
    intro a ha
    simp [hpend a ha]
  have hidem : ∀ l : List ConsolidationRecommendation,
      (l.filter (fun r => r.status ≠ RecommendationStatus.pending)).filter
          (fun r => r.status ≠ RecommendationStatus.pending) =
        l.filter (fun r => r.status ≠ RecommendationStatus.pending) := by
    intro l
    rw [List.filter_filter]
    refine List.filter_congr ?_
    intro a _
    exact Bool.and_self _
  simp only [generate_recommendations, List.filter_append, hnp, List.append_nil, hidem]

/-- Witness for C2: the fresh recommendation generated for the concrete
idle example is pending. -/
theorem c2_generate_pending_semantics_witness :
    ex_idle_rec.status = RecommendationStatus.pending := by
  refine (c2_generate_pending_semantics [] [(1, ex_idle_server)] [(1, ex_idle_analysis)]).2.1
    ex_idle_rec ?_
  show ex_idle_rec ∈ generate_new_recommendations [(1, ex_idle_server)] [(1, ex_idle_analysis)]
  refine List.mem_append.2 (Or.inl (List.mem_append.2 (Or.inl ?_)))
  rw [find_idle_eval_example]
  exact List.mem_singleton.2 rfl

/-- C6: for the running cx41 cloud server costing 17.49/mo whose 30-day
average CPU is 2% (tier idle), the idle rule produces exactly one
high-confidence recommendation targeting cx31 with savings
17.49 − 10.49 = 7.00, and its rationale text states the 30-day average and
peak CPU values. -/
theorem c6_idle_rule_example :
    find_idle_servers [(1, ex_idle_server)] [(1, ex_idle_analysis)] = [ex_idle_rec] ∧
    ex_idle_rec.confidence = Confidence.high ∧
    ex_idle_rec.target_server_type = "cx31" ∧
    ex_idle_rec.monthly_savings_eur = 17.49 - 10.49 ∧
    (17.49 - 10.49 : ℚ) = 7 ∧
    strContainsSub ex_idle_rec.rationale (toFixed1 ex_idle_analysis.avg_cpu_30d) = true ∧
    strContainsSub ex_idle_rec.rationale (toFixed1 ex_idle_analysis.peak_cpu_30d) = true := by
  have hf1 : toFixed1 ex_idle_analysis.avg_cpu_30d = "2.0" := by with_unfolding_all decide
  have hf2 : toFixed1 ex_idle_analysis.peak_cpu_30d = "4.0" := by with_unfolding_all decide
  refine ⟨find_idle_eval_example, rfl, rfl, rfl, by norm_num, ?_, ?_⟩
  · rw [hf1]; decide
  · rw [hf2]; decide

/-! ## Collection orchestrator (`app/services/collector.py`) and analyzer
(`app/services/analyzer.py`) -/

/-- The CPU normalization inside `collector.py::_collect_cloud_metrics`:
average the raw samples, divide by the core count when the source reports
per-core-summed CPU (average > 100) on a server with positive cores, then
clamp to at most 100. -/
def normalized_avg_cpu (cpu_values : List ℚ) (cores : Int) : ℚ :=
  let avg_cpu := cpu_values.sum / cpu_values.length
  min 100 (if cores > 0 ∧ avg_cpu > 100 then avg_cpu / (cores : ℚ) else avg_cpu)

/-- `collector.py::_collect_cloud_metrics` — the snapshot written for one
cloud server, `none` when no CPU sample arrived this cycle (the function
returns early and writes nothing). `disk_pct`, `net_in`, `net_out` stand
for the aggregates computed from the disk/network series. The Cloud API
exposes no memory metric, so `memory_percent` is hard-coded 0.0, and this
path never sets `load_avg_1m`. -/
def cloud_metric_snapshot (sid : Nat) (now : ℚ) (cpu_values : List ℚ) (cores : Int)
    (disk_pct net_in net_out : ℚ) : Option MetricSnapshot :=
  if cpu_values.isEmpty then none
  else some
    { server_id := sid, timestamp := now,
      cpu_percent := round2 (normalized_avg_cpu cpu_values cores),
      memory_percent := 0,
      disk_percent := round2 disk_pct,
      network_in_mbps := round4 net_in,
      network_out_mbps := round4 net_out,
      load_avg_1m := none }

/-- SQL `MAX` over a nonempty column ( `0` for the empty list, which the
analyzer never queries because it returns `none` first). -/
def qmax : List ℚ → ℚ
  | [] => 0
  | x :: xs => xs.foldl max x

/-- `analyzer.py::analyze_server` over the server's snapshots inside the
trailing 30-day window: SQL AVG/MAX of the cpu and memory columns rounded
to two decimals, plus the tier classified from the rounded mean CPU;
`none` when the window holds no snapshot. -/
def analyze_server (sid : Nat) (snaps : List MetricSnapshot) : Option Analysis :=
  if snaps.isEmpty then none
  else
    let avg_cpu := round2 ((snaps.map (·.cpu_percent)).sum / snaps.length)
    some
      { server_id := sid
        avg_cpu_30d := avg_cpu
        avg_memory_30d := round2 ((snaps.map (·.memory_percent)).sum / snaps.length)
        peak_cpu_30d := round2 (qmax (snaps.map (·.cpu_percent)))
        peak_memory_30d := round2 (qmax (snaps.map (·.memory_percent)))
        utilization_tier := classify_utilization avg_cpu }

theorem round2_zero : round2 0 = 0 := by
  unfold round2
  rw [mul_zero, round_zero]
  norm_num

theorem foldl_max_zeros : ∀ (l : List ℚ), (∀ x ∈ l, x = 0) → List.foldl max (0 : ℚ) l = 0
  | [], _ => rfl
  | x :: xs, h => by
    have hx : x = 0 := h x (List.mem_cons_self _ _)
    rw [List.foldl_cons, hx, max_self]
    exact foldl_max_zeros xs (fun y hy => h y (List.mem_cons_of_mem _ hy))

theorem qmax_zeros {l : List ℚ} (h : ∀ x ∈ l, x = 0) : qmax l = 0 := by
  cases l with
  | nil => rfl
  | cons x xs =>
    rw [qmax, h x (List.mem_cons_self _ _)]
    exact foldl_max_zeros xs (fun y hy => h y (List.mem_cons_of_mem _ hy))

/-- C4: on the cloud collection path, whenever the averaged raw CPU reading
exceeds 100 and the core count is positive, the stored value is the
average divided by the core count and then clamped to at most 100; an
average raw reading of 350 on a 4-core server normalizes to exactly 87.5
(and is stored as exactly 87.5); and every snapshot written by this path
stores a CPU percentage of at most 100. -/
theorem c4_cpu_normalization (cpu_values : List ℚ) (cores : Int) (sid : Nat)
    (now disk_pct net_in net_out : ℚ) :
    (0 < cores → 100 < cpu_values.sum / cpu_values.length →
      normalized_avg_cpu cpu_values cores =
        min 100 (cpu_values.sum / cpu_values.length / (cores : ℚ))) ∧
    normalized_avg_cpu [350] 4 = 87.5 ∧
    (∀ sn ∈ cloud_metric_snapshot sid now [350] 4 disk_pct net_in net_out,
      sn.cpu_percent = 87.5) ∧
    (∀ sn ∈ cloud_metric_snapshot sid now cpu_values cores disk_pct net_in net_out,
      sn.cpu_percent ≤ 100) := by
  have h875 : normalized_avg_cpu [350] 4 = 87.5 := by
    norm_num [normalized_avg_cpu, min_def]
  have hr875 : round2 87.5 = 87.5 := by
    have : (87.5 : ℚ) = ((8750 : ℤ) : ℚ) / 100 := by norm_num
    rw [this, round2_cent]
  refine ⟨?_, h875, ?_, ?_⟩
  · intro hc ha
    simp only [normalized_avg_cpu]
    rw [if_pos (And.intro hc ha)]
  · intro sn hsn
    have hne : ¬ (([350] : List ℚ).isEmpty = true) := by decide
    unfold cloud_metric_snapshot at hsn
    rw [if_neg hne, Option.mem_def, Option.some_inj] at hsn
    subst hsn
    simp [h875, hr875]
  · intro sn hsn
    unfold cloud_metric_snapshot at hsn
    split at hsn
    · simp at hsn
    · rw [Option.mem_def, Option.some_inj] at hsn
      subst hsn
      exact round2_le_100 (min_le_left _ _)

/-- Witness for C4: divide-then-clamp at the concrete 350-on-4-cores
input. -/
theorem c4_cpu_normalization_witness :
    normalized_avg_cpu [350] 4 =
      min 100 (([350] : List ℚ).sum / (([350] : List ℚ).length : ℚ) / ((4 : Int) : ℚ)) :=
  (c4_cpu_normalization [350] 4 0 0 0 0 0).1 (by norm_num)
    (by norm_num)

/-- C10: every snapshot written by the cloud collection path has
`memory_percent` exactly 0, and the analyzer's mean and peak memory
statistics over snapshots that all carry zero memory are both 0. -/
theorem c10_cloud_memory_zero (sid sid2 : Nat) (now : ℚ) (cpu_values : List ℚ)
    (cores : Int) (disk_pct net_in net_out : ℚ) (snaps : List MetricSnapshot) :
    (∀ sn ∈ cloud_metric_snapshot sid now cpu_values cores disk_pct net_in net_out,
      sn.memory_percent = 0) ∧
    ((∀ sn ∈ snaps, sn.memory_percent = 0) →
      ∀ a ∈ analyze_server sid2 snaps, a.avg_memory_30d = 0 ∧ a.peak_memory_30d = 0) := by
  constructor
  · intro sn hsn
    unfold cloud_metric_snapshot at hsn
    split at hsn
    · simp at hsn
    · rw [Option.mem_def, Option.some_inj] at hsn
      subst hsn
      rfl
  · intro hmem a ha
    unfold analyze_server at ha
    split at ha
    · simp at ha
    · rw [Option.mem_def, Option.some_inj] at ha
      subst ha
      have hzero : ∀ x ∈ snaps.map (fun sn => sn.memory_percent), x = (0 : ℚ) := by
        intro x hx
        obtain ⟨sn, hsn, rfl⟩ := List.mem_map.1 hx
        exact hmem sn hsn
      constructor
      · simp only [List.sum_eq_zero hzero, zero_div, round2_zero]
      · simp only [qmax_zeros hzero, round2_zero]

/-- Witness for C10 at a concrete all-zero-memory snapshot list. -/
theorem c10_cloud_memory_zero_witness :
    ∀ a ∈ analyze_server 7
      [{ server_id := 7, timestamp := 0, cpu_percent := 42, memory_percent := 0,
         disk_percent := 0, network_in_mbps := 0, network_out_mbps := 0,
         load_avg_1m := none }],
      a.avg_memory_30d = 0 ∧ a.peak_memory_30d = 0 :=
  (c10_cloud_memory_zero 7 7 0 [] 0 0 0 0 _).2 (by
    intro sn hsn
    rw [List.mem_singleton.1 hsn])

/-! ## Staging rule (C5) helpers -/

theorem mem_sorted_of_mem_PRICE : ∀ tp ∈ PRICE_MAP, tp ∈ sortedPRICE := by
  intro tp h
  simp only [PRICE_MAP] at h
  fin_cases h <;> simp [sortedPRICE]

theorem mem_PRICE_of_mem_sorted : ∀ tp ∈ sortedPRICE, tp ∈ PRICE_MAP := by
  intro tp h
  simp only [sortedPRICE] at h
  fin_cases h <;> simp [PRICE_MAP]

/-- The rule fires only with at least two matching running servers. -/
theorem staging_fires_only_with_two {sbid : List (Nat × Server)}
    (abid : List (Nat × Analysis)) (h : (staging_servers sbid).length < 2) :
    find_staging_consolidation sbid abid = [] := by
  simp only [find_staging_consolidation]
  rw [if_pos h]

/-- The rule emits at most one recommendation. -/
theorem staging_length_le_one (sbid : List (Nat × Server)) (abid : List (Nat × Analysis)) :
    (find_staging_consolidation sbid abid).length ≤ 1 := by
  simp only [find_staging_consolidation]
  split
  · simp
  · split <;> simp

/-- When some catalog type has enough cores, the pick is adequate and of
minimal price among adequate types. -/
theorem pick_adequate {c : ℚ} {ss : List Server}
    (hex : ∃ tp ∈ PRICE_MAP,
      target_cores_needed c ss ≤ ((type_cores.lookup tp.1).getD 1 : ℚ)) :
    target_cores_needed c ss ≤
      ((type_cores.lookup (pick_target_type_for_combined_load c ss)).getD 1 : ℚ) ∧
    ∀ tp ∈ PRICE_MAP,
      target_cores_needed c ss ≤ ((type_cores.lookup tp.1).getD 1 : ℚ) →
      (PRICE_MAP.lookup (pick_target_type_for_combined_load c ss)).getD 0 ≤ tp.2 := by
  obtain ⟨tp0, htp0, hle0⟩ := hex
  have hmem0 : tp0 ∈ sortByPrice PRICE_MAP := by
    rw [sortByPrice_PRICE_MAP]
    exact mem_sorted_of_mem_PRICE tp0 htp0
  rcases hf : (sortByPrice PRICE_MAP).find? (fun tp =>
      target_cores_needed c ss ≤ ((type_cores.lookup tp.1).getD 1 : ℚ)) with _ | x
  · exact absurd (decide_eq_true hle0) (List.find?_eq_none.1 hf tp0 hmem0)
  · have hpx : target_cores_needed c ss ≤ ((type_cores.lookup x.1).getD 1 : ℚ) := by
      simpa using List.find?_some hf
    have hxmem : x ∈ sortByPrice PRICE_MAP := List.mem_of_find?_eq_some hf
    have hmin := find?_min_of_sorted
      (by rw [sortByPrice_PRICE_MAP]; exact sortedPRICE_pairwise) hf
    have hpick : pick_target_type_for_combined_load c ss = x.1 := by
      unfold pick_target_type_for_combined_load
      rw [hf]
    rw [sortByPrice_PRICE_MAP] at hxmem
    have hlookup : PRICE_MAP.lookup x.1 = some x.2 := (sortedPRICE_lookup x hxmem).1
    rw [hpick]
    refine ⟨hpx, ?_⟩
    intro tp htp hle
    rw [hlookup, Option.getD_some]
    exact hmin tp (by rw [sortByPrice_PRICE_MAP]; exact mem_sorted_of_mem_PRICE tp htp)
      (decide_eq_true hle)

/-- When no catalog type has enough cores, the pick falls back to ccx33,
the most expensive candidate. -/
theorem pick_fallback {c : ℚ} {ss : List Server}
    (hnone : ∀ tp ∈ PRICE_MAP,
      ¬ target_cores_needed c ss ≤ ((type_cores.lookup tp.1).getD 1 : ℚ)) :
    pick_target_type_for_combined_load c ss = "ccx33" := by
  have hf : (sortByPrice PRICE_MAP).find? (fun tp =>
      target_cores_needed c ss ≤ ((type_cores.lookup tp.1).getD 1 : ℚ)) = none := by
    rw [List.find?_eq_none]
    intro x hx
    rw [sortByPrice_PRICE_MAP] at hx
    simpa using hnone x (mem_PRICE_of_mem_sorted x hx)
  have hlast : (sortByPrice PRICE_MAP).getLast? = some ("ccx33", (42.49 : ℚ)) := by
    rw [sortByPrice_PRICE_MAP]
    norm_num [sortedPRICE, List.getLast?]
  unfold pick_target_type_for_combined_load
  rw [hf, hlast]

/-- ccx33 has the most cores of any catalog type. -/
theorem ccx33_cores_maximal : ∀ tp ∈ PRICE_MAP,
    (type_cores.lookup tp.1).getD 1 ≤ (type_cores.lookup "ccx33").getD 1 := by
  decide

/-- With at least two matching servers, a recommendation is emitted exactly
when the chosen target's catalog price is below the combined cost. -/
theorem staging_emits_iff {sbid : List (Nat × Server)} (abid : List (Nat × Analysis))
    (h2 : 2 ≤ (staging_servers sbid).length) :
    find_staging_consolidation sbid abid ≠ [] ↔
      (PRICE_MAP.lookup (pick_target_type_for_combined_load
          (staging_combined_peak sbid abid) (staging_servers sbid))).getD
          (staging_total_cost sbid * 0.5) < staging_total_cost sbid := by
  simp only [find_staging_consolidation]
  rw [if_neg (by omega)]
  split
  · next hle =>
    refine iff_of_false (by simp) (not_lt.2 ?_)
    have := (max_le_iff.1 hle).1
    linarith
  · next hgt =>
    refine iff_of_true (by simp) ?_
    by_contra hnlt
    exact hgt (by
      have hTP : staging_total_cost sbid -
          (PRICE_MAP.lookup (pick_target_type_for_combined_load
            (staging_combined_peak sbid abid) (staging_servers sbid))).getD
            (staging_total_cost sbid * 0.5) ≤ 0 := by
        have := not_lt.1 hnlt
        linarith
      simp [max_le_iff, hTP])

/-- First staging server of the spec's example: running, named staging-1,
costing 5.39/mo, one core. -/
def c5_server1 : Server :=
  { id := 1, hetzner_id := "2001", name := "staging-1", server_type := "cx21",
    source := ServerSource.cloud, status := "running", datacenter := "nbg1-dc3",
    ipv4 := "10.0.0.2", cores := 1, memory_gb := 4, disk_gb := 40,
    monthly_cost_eur := 5.39, labels := [], project_name := none, last_seen_at := 0 }

/-- Second staging server of the example (same shape, named staging-2). -/
def c5_server2 : Server :=
  { c5_server1 with id := 2, hetzner_id := "2002", name := "staging-2", ipv4 := "10.0.0.3" }

def c5_sbid : List (Nat × Server) := [(1, c5_server1), (2, c5_server2)]

def c5_analysis1 : Analysis :=
  { server_id := 1, avg_cpu_30d := 2, avg_memory_30d := 10, peak_cpu_30d := 4,
    peak_memory_30d := 12, utilization_tier := classify_utilization 2 }

def c5_analysis2 : Analysis :=
  { server_id := 2, avg_cpu_30d := 1, avg_memory_30d := 8, peak_cpu_30d := 3,
    peak_memory_30d := 10, utilization_tier := classify_utilization 1 }

/-- Analyses giving the two servers a combined 30-day peak CPU of 7%. -/
def c5_abid : List (Nat × Analysis) := [(1, c5_analysis1), (2, c5_analysis2)]

theorem c5_staging_eval : staging_servers c5_sbid = [c5_server1, c5_server2] := by
  have hm1 : stagingPatternMatch "staging-1" = true := by decide
  have hm2 : stagingPatternMatch "staging-2" = true := by decide
  simp [staging_servers, c5_sbid, c5_server1, c5_server2, List.filter, hm1, hm2]

theorem c5_total : staging_total_cost c5_sbid = 10.78 := by
  rw [staging_total_cost, c5_staging_eval]
  norm_num [c5_server1, c5_server2]

theorem c5_peak : staging_combined_peak c5_sbid c5_abid = 7 := by
  rw [staging_combined_peak, c5_staging_eval]
  have h1 : c5_abid.lookup c5_server1.id = some c5_analysis1 := rfl
  have h2 : c5_abid.lookup c5_server2.id = some c5_analysis2 := rfl
  norm_num [h1, h2, c5_analysis1, c5_analysis2]

theorem c5_pick :
    pick_target_type_for_combined_load 7 [c5_server1, c5_server2] = "cx11" := by
  have hsum : (([c5_server1, c5_server2] : List Server).map (fun s => s.cores)).sum = 2 := by
    norm_num [c5_server1, c5_server2]
  have htc : target_cores_needed 7 [c5_server1, c5_server2] = 1 := by
    simp only [target_cores_needed, hsum]
    norm_num [max_def]
  have hc11 : type_cores.lookup "cx11" = some 1 := by decide
  have hp : (fun tp : String × ℚ =>
      decide (target_cores_needed 7 [c5_server1, c5_server2] ≤
        ((type_cores.lookup tp.1).getD 1 : ℚ))) ("cx11", 3.29) = true := by
    simp only [htc, hc11, Option.getD_some]
    norm_num
  have hfind : (sortByPrice PRICE_MAP).find? (fun tp =>
      target_cores_needed 7 [c5_server1, c5_server2] ≤
        ((type_cores.lookup tp.1).getD 1 : ℚ)) = some ("cx11", 3.29) := by
    rw [sortByPrice_PRICE_MAP]
    simp only [sortedPRICE]
    exact List.find?_cons_of_pos _ hp
  unfold pick_target_type_for_combined_load
  rw [hfind]

theorem c5_target_price :
    (PRICE_MAP.lookup (pick_target_type_for_combined_load
        (staging_combined_peak c5_sbid c5_abid) (staging_servers c5_sbid))).getD
        (staging_total_cost c5_sbid * 0.5) = 3.29 := by
  rw [c5_peak, c5_staging_eval, c5_pick]
  have : PRICE_MAP.lookup "cx11" = some (3.29 : ℚ) := by
    simp +decide [PRICE_MAP, List.lookup]
  rw [this, Option.getD_some]

theorem c5_emits_one : (find_staging_consolidation c5_sbid c5_abid).length = 1 := by
  have h2 : 2 ≤ (staging_servers c5_sbid).length := by
    rw [c5_staging_eval]
    norm_num
  have hne : find_staging_consolidation c5_sbid c5_abid ≠ [] := by
    refine (staging_emits_iff c5_abid h2).2 ?_
    rw [c5_target_price, c5_total]
    norm_num
  have hle := staging_length_le_one c5_sbid c5_abid
  have hpos : 0 < (find_staging_consolidation c5_sbid c5_abid).length :=
    List.length_pos.2 hne
  omega

/-- C5: the non-production consolidation rule fires only when at least two
running servers match the staging/dev/test pattern; it emits at most one
recommendation, always of medium confidence; the target type is the
cheapest catalog type whose cores meet `target_cores_needed`
(= combined peak CPU / 100 × total original cores, divided by 0.7, at least
1), falling back to ccx33 — the type with the most cores — when none
suffices; with at least two matches a recommendation is emitted exactly
when the chosen target's price is below the combined monthly cost; and on
the concrete staging-1/staging-2 example (5.39 each, combined peak 7%,
2 total cores) it emits exactly one medium-confidence recommendation,
the chosen target's price 3.29 being below 10.78. -/
theorem c5_staging_rule (sbid : List (Nat × Server)) (abid : List (Nat × Analysis)) :
    ((staging_servers sbid).length < 2 → find_staging_consolidation sbid abid = []) ∧
    (find_staging_consolidation sbid abid).length ≤ 1 ∧
    (∀ r ∈ find_staging_consolidation sbid abid, r.confidence = Confidence.medium) ∧
    (∀ c : ℚ, ∀ ss : List Server,
      ((∃ tp ∈ PRICE_MAP,
          target_cores_needed c ss ≤ ((type_cores.lookup tp.1).getD 1 : ℚ)) →
        target_cores_needed c ss ≤
          ((type_cores.lookup (pick_target_type_for_combined_load c ss)).getD 1 : ℚ) ∧
        ∀ tp ∈ PRICE_MAP,
          target_cores_needed c ss ≤ ((type_cores.lookup tp.1).getD 1 : ℚ) →
          (PRICE_MAP.lookup (pick_target_type_for_combined_load c ss)).getD 0 ≤ tp.2) ∧
      ((∀ tp ∈ PRICE_MAP,
          ¬ target_cores_needed c ss ≤ ((type_cores.lookup tp.1).getD 1 : ℚ)) →
        pick_target_type_for_combined_load c ss = "ccx33" ∧
        ∀ tp ∈ PRICE_MAP,
          ((type_cores.lookup tp.1).getD 1 : ℚ) ≤
            ((type_cores.lookup "ccx33").getD 1 : ℚ))) ∧
    (2 ≤ (staging_servers sbid).length →
      (find_staging_consolidation sbid abid ≠ [] ↔
        (PRICE_MAP.lookup (pick_target_type_for_combined_load
            (staging_combined_peak sbid abid) (staging_servers sbid))).getD
            (staging_total_cost sbid * 0.5) < staging_total_cost sbid)) ∧
    (2 ≤ (staging_servers c5_sbid).length ∧
      staging_total_cost c5_sbid = 10.78 ∧
      (PRICE_MAP.lookup (pick_target_type_for_combined_load
          (staging_combined_peak c5_sbid c5_abid) (staging_servers c5_sbid))).getD
          (staging_total_cost c5_sbid * 0.5) = 3.29 ∧
      (3.29 : ℚ) < 10.78 ∧
      (find_staging_consolidation c5_sbid c5_abid).length = 1 ∧
      ∀ r ∈ find_staging_consolidation c5_sbid c5_abid,
        r.confidence = Confidence.medium) := by
  refine ⟨staging_fires_only_with_two abid, staging_length_le_one sbid abid,
    fun r hr => (find_staging_mem hr).2.1, ?_, staging_emits_iff abid, ?_, c5_total,
    c5_target_price, by norm_num, c5_emits_one,
    fun r hr => (find_staging_mem hr).2.1⟩
  · intro c ss
    refine ⟨fun hex => pick_adequate hex, fun hnone => ⟨pick_fallback hnone, ?_⟩⟩
    intro tp htp
    exact_mod_cast ccx33_cores_maximal tp htp
  · rw [c5_staging_eval]
    norm_num

/-- Witness for C5 at the concrete example: a recommendation is emitted. -/
theorem c5_staging_rule_witness :
    find_staging_consolidation c5_sbid c5_abid ≠ [] := by
  have h := (c5_staging_rule c5_sbid c5_abid).2.2.2.2.1
  refine (h ?_).2 ?_
  · rw [c5_staging_eval]
    norm_num
  · rw [c5_target_price, c5_total]
    norm_num

/-! ## Agent-report ingestion (`app/routes/servers.py::agent_report`) -/

/-- `schemas.py::AgentServiceReport` — one discovered service in a report. -/
structure AgentServiceReport where
  name : String
  service_type : String
  port : Option Int
  status : String
  cpu_percent : Option ℚ
  memory_mb : Option ℚ
deriving DecidableEq

/-- `schemas.py::AgentReport` — the wire payload pushed by the on-host
agent. -/
structure AgentReport where
  hostname : String
  server_ip : String
  cpu_percent : ℚ
  memory_percent : ℚ
  disk_percent : ℚ
  network_in_mbps : ℚ
  network_out_mbps : ℚ
  load_avg_1m : Option ℚ
  services : List AgentServiceReport
  secret : String
deriving DecidableEq

/-- The slice of the relational store that report ingestion touches. -/
structure DbState where
  servers : List Server
  snapshots : List MetricSnapshot
  services : List RunningService
  nextId : Nat
deriving DecidableEq

/-- Outcome of one ingestion call: HTTP 200, HTTP 403, or the HTTP 500 the
route produces when `ServiceType(...)` raises `ValueError` (the session is
rolled back, so the store is unchanged in that case too). -/
inductive AgentResult
  | ok
  | forbidden
  | invalid_service
deriving DecidableEq

/-- `ServiceType(value)` — the enum constructor, `none` on an unknown
kind. -/
def ServiceType.ofString? : String → Option ServiceType
  | "docker" => some ServiceType.docker
  | "systemd" => some ServiceType.systemd
  | "port" => some ServiceType.port
  | _ => none

/-- The `RunningService` row built for one reported service. -/
def mkRunningService (sid : Nat) (now : ℚ) (svc : AgentServiceReport) : RunningService :=
  { server_id := sid,
    service_type := (ServiceType.ofString? svc.service_type).getD ServiceType.docker,
    name := svc.name, port := svc.port, status := svc.status,
    cpu_percent := svc.cpu_percent, memory_mb := svc.memory_mb,
    discovered_at := now, last_seen_at := now }

/-- The `MetricSnapshot` row inserted for one report. -/
def agent_snapshot (sid : Nat) (now : ℚ) (r : AgentReport) : MetricSnapshot :=
  { server_id := sid, timestamp := now, cpu_percent := r.cpu_percent,
    memory_percent := r.memory_percent, disk_percent := r.disk_percent,
    network_in_mbps := r.network_in_mbps, network_out_mbps := r.network_out_mbps,
    load_avg_1m := r.load_avg_1m }

/-- `select(Server).where(Server.ipv4 == ip)` — the server found by IP. -/
def find_server_by_ip (servers : List Server) (ip : String) : Option Server :=
  servers.find? (fun s => s.ipv4 == ip)

/-- The id a report for `ip` is stored under: the id of the server found by
IP, or the id the freshly auto-registered server receives. -/
def report_server_id (st : DbState) (ip : String) : Nat :=
  match find_server_by_ip st.servers ip with
  | some s => s.id
  | none => st.nextId

/-- `servers.py::agent_report`: reject on secret mismatch (no mutation);
reject with a rollback when a reported service kind is invalid (the route
raises mid-transaction and nothing commits); otherwise find the server by
IP or auto-register a dedicated one, update its name and last-seen time,
insert one snapshot, delete the server's service rows wholesale, and
insert the reported ones. -/
def agent_report (cfg_secret : String) (now : ℚ) (st : DbState) (r : AgentReport) :
    DbState × AgentResult :=
  if r.secret ≠ cfg_secret then (st, AgentResult.forbidden)
  else if r.services.any (fun svc => (ServiceType.ofString? svc.service_type).isNone)
  then (st, AgentResult.invalid_service)
  else
    match find_server_by_ip st.servers r.server_ip with
    | none =>
      let srv : Server :=
        { id := st.nextId, hetzner_id := "agent-" ++ r.server_ip, name := r.hostname,
          server_type := "dedicated", source := ServerSource.dedicated,
          status := "running", datacenter := "", ipv4 := r.server_ip, cores := 0,
          memory_gb := 0, disk_gb := 0, monthly_cost_eur := 0, labels := [],
          project_name := none, last_seen_at := now }
      ({ servers := st.servers ++ [srv],
         snapshots := st.snapshots ++ [agent_snapshot srv.id now r],
         services := st.services.filter (fun sv => sv.server_id ≠ srv.id)
           ++ r.services.map (mkRunningService srv.id now),
         nextId := st.nextId + 1 }, AgentResult.ok)
    | some s0 =>
      let s1 := { s0 with name := r.hostname, last_seen_at := now }
      ({ servers := st.servers.map (fun s => if s.id = s0.id then s1 else s),
         snapshots := st.snapshots ++ [agent_snapshot s1.id now r],
         services := st.services.filter (fun sv => sv.server_id ≠ s1.id)
           ++ r.services.map (mkRunningService s1.id now),
         nextId := st.nextId }, AgentResult.ok)

/-- `servers.py::get_server_services` — the stored service rows of one
server (the route additionally orders them by name, which does not affect
which rows are returned). -/
def query_services (st : DbState) (sid : Nat) : List RunningService :=
  st.services.filter (fun sv => sv.server_id = sid)

theorem filter_ne_then_eq (l : List RunningService) (sid : Nat) :
    (l.filter (fun sv => sv.server_id ≠ sid)).filter (fun sv => sv.server_id = sid) = [] := by
  rw [List.filter_filter, List.filter_eq_nil_iff]
  intro a ha
  by_cases h : a.server_id = sid <;> simp [h]

theorem filter_eq_map_services (sid : Nat) (now : ℚ) :
    ∀ l : List AgentServiceReport,
    (l.map (mkRunningService sid now)).filter (fun sv => sv.server_id = sid) =
      l.map (mkRunningService sid now)
  | [] => rfl
  | svc :: rest => by
    rw [List.map_cons, List.filter_cons]
    rw [if_pos (by exact decide_eq_true rfl)]
    rw [filter_eq_map_services sid now rest]

/-- One authenticated, well-formed report replaces the target server's
service rows with exactly the reported list. -/
theorem agent_report_replaces_services (cfg : String) (now : ℚ) (st : DbState)
    (r : AgentReport) (hs : r.secret = cfg)
    (hv : r.services.all (fun svc => (ServiceType.ofString? svc.service_type).isSome) = true) :
    (agent_report cfg now st r).2 = AgentResult.ok ∧
    query_services (agent_report cfg now st r).1 (report_server_id st r.server_ip) =
      r.services.map (mkRunningService (report_server_id st r.server_ip) now) := by
  have hnone : ¬ (r.services.any
      (fun svc => (ServiceType.ofString? svc.service_type).isNone) = true) := by
    rw [List.any_eq_true]
    rintro ⟨svc, hsvc, hN⟩
    have hS := List.all_eq_true.1 hv svc hsvc
    rw [Option.isNone_iff_eq_none] at hN
    rw [hN] at hS
    simp at hS
  unfold agent_report
  rw [if_neg (by simp [hs]), if_neg hnone]
  rcases hfind : find_server_by_ip st.servers r.server_ip with _ | s0
  · have hid : report_server_id st r.server_ip = st.nextId := by
      unfold report_server_id
      rw [hfind]
    refine ⟨rfl, ?_⟩
    rw [hid]
    simp only [query_services, List.filter_append]
    rw [filter_ne_then_eq, filter_eq_map_services, List.nil_append]
  · have hid : report_server_id st r.server_ip = s0.id := by
      unfold report_server_id
      rw [hfind]
    refine ⟨rfl, ?_⟩
    rw [hid]
    simp only [query_services, List.filter_append]
    rw [filter_ne_then_eq, filter_eq_map_services, List.nil_append]

/-- C7: after ingesting an authenticated, well-formed report, the stored
running-service set of the reported server is exactly the service list the
report carried; in particular, after two successive reports for the same
server IP, querying the services returns exactly the second report's list
(mapped to rows), never a union with the first. -/
theorem c7_service_replacement (cfg : String) (now1 now2 : ℚ) (st : DbState)
    (r1 r2 : AgentReport) (h1 : r1.secret = cfg) (h2 : r2.secret = cfg)
    (hv1 : r1.services.all (fun svc => (ServiceType.ofString? svc.service_type).isSome) = true)
    (hv2 : r2.services.all (fun svc => (ServiceType.ofString? svc.service_type).isSome) = true) :
    ((agent_report cfg now1 st r1).2 = AgentResult.ok) ∧
    (query_services (agent_report cfg now1 st r1).1 (report_server_id st r1.server_ip) =
      r1.services.map (mkRunningService (report_server_id st r1.server_ip) now1)) ∧
    (r2.server_ip = r1.server_ip →
      query_services (agent_report cfg now2 (agent_report cfg now1 st r1).1 r2).1
          (report_server_id (agent_report cfg now1 st r1).1 r2.server_ip) =
        r2.services.map (mkRunningService
          (report_server_id (agent_report cfg now1 st r1).1 r2.server_ip) now2)) :=
  ⟨(agent_report_replaces_services cfg now1 st r1 h1 hv1).1,
   (agent_report_replaces_services cfg now1 st r1 h1 hv1).2,
   fun _ => (agent_report_replaces_services cfg now2
     (agent_report cfg now1 st r1).1 r2 h2 hv2).2⟩

/-- Two concrete disjoint-service reports from the same IP. -/
def c7_report1 : AgentReport :=
  { hostname := "db1", server_ip := "192.0.2.10", cpu_percent := 35,
    memory_percent := 60, disk_percent := 40, network_in_mbps := 2,
    network_out_mbps := 1, load_avg_1m := some 2, secret := "change-me",
    services := [{ name := "postgresql", service_type := "systemd", port := some 5432,
                   status := "running", cpu_percent := some 30, memory_mb := some 2048 }] }

def c7_report2 : AgentReport :=
  { c7_report1 with
    services := [{ name := "redis", service_type := "docker", port := some 6379,
                   status := "running", cpu_percent := some 5, memory_mb := some 256 }] }

def c7_state0 : DbState := { servers := [], snapshots := [], services := [], nextId := 1 }

/-- Witness for C7: the two concrete successive reports leave exactly the
second report's service list. -/
theorem c7_service_replacement_witness :
    query_services
        (agent_report "change-me" 1
          (agent_report "change-me" 0 c7_state0 c7_report1).1 c7_report2).1
        (report_server_id (agent_report "change-me" 0 c7_state0 c7_report1).1
          c7_report2.server_ip) =
      c7_report2.services.map (mkRunningService
        (report_server_id (agent_report "change-me" 0 c7_state0 c7_report1).1
          c7_report2.server_ip) 1) :=
  (c7_service_replacement "change-me" 0 1 c7_state0 c7_report1 c7_report2
    rfl rfl (by decide) (by decide)).2.2 rfl

/-- C8: a report whose shared secret differs from the configured one yields
the forbidden signal and leaves the store untouched: no server row is
created or updated, no snapshot is inserted, and no service row is deleted
or inserted. -/
theorem c8_forbidden_no_mutation (cfg : String) (now : ℚ) (st : DbState) (r : AgentReport)
    (h : r.secret ≠ cfg) :
    agent_report cfg now st r = (st, AgentResult.forbidden) ∧
    (agent_report cfg now st r).1.servers = st.servers ∧
    (agent_report cfg now st r).1.snapshots = st.snapshots ∧
    (agent_report cfg now st r).1.services = st.services := by
  have hmain : agent_report cfg now st r = (st, AgentResult.forbidden) := by
    unfold agent_report
    rw [if_pos h]
  exact ⟨hmain, by rw [hmain], by rw [hmain], by rw [hmain]⟩

/-- Witness for C8 at a concrete mismatched secret. -/
theorem c8_forbidden_no_mutation_witness :
    agent_report "change-me" 0 c7_state0 { c7_report1 with secret := "wrong" } =
      (c7_state0, AgentResult.forbidden) :=
  (c8_forbidden_no_mutation "change-me" 0 c7_state0
    { c7_report1 with secret := "wrong" } (by decide)).1

/-! ## Rate-limited API clients (`app/services/hetzner_cloud.py` and
`app/services/hetzner_robot.py`) -/

/-- One HTTP response as the retry loop sees it: status code, the parsed
Retry-After header when present, and the body text. -/
structure HttpResponse where
  status_code : Nat
  retry_after : Option ℚ
  text : String
deriving DecidableEq

/-- `HetznerCloudError` / `HetznerRobotError` — a typed error carrying the
status code and (truncated) detail. -/
structure ApiError where
  status_code : Nat
  detail : String
deriving DecidableEq

/-- `MAX_RETRIES` in both client modules. -/
def MAX_RETRIES : Nat := 3

/-- `INITIAL_BACKOFF_S` in both client modules. -/
def INITIAL_BACKOFF_S : ℚ := 1

/-- The retry loop shared by `HetznerCloudClient._request` and
`HetznerRobotClient._request`, over the sequence of responses the server
would return per attempt: on 429 sleep the Retry-After hint (else the
current backoff), double the backoff and retry; on any other status ≥ 400
fail with the status and the body truncated to 500 characters; otherwise
succeed; after exhausting all attempts on 429 fail with the typed
rate-limit error. Returns the outcome and the list of waits slept. -/
def request_with_retry (responses : Nat → HttpResponse) :
    Nat → Nat → ℚ → Except ApiError HttpResponse × List ℚ
  | 0, _, _ => (Except.error ⟨429, "Rate limit exceeded after max retries"⟩, [])
  | fuel + 1, attempt, backoff =>
    let response := responses attempt
    if response.status_code = 429 then
      let retry_after := response.retry_after.getD backoff
      let rest := request_with_retry responses fuel (attempt + 1) (backoff * 2)
      (rest.1, retry_after :: rest.2)
    else if 400 ≤ response.status_code then
      (Except.error ⟨response.status_code, str_take response.text 500⟩, [])
    else
      (Except.ok response, [])

/-- `HetznerCloudClient._request` as a function of the response sequence. -/
def HetznerCloudClient.request (responses : Nat → HttpResponse) :
    Except ApiError HttpResponse × List ℚ :=
  request_with_retry responses MAX_RETRIES 0 INITIAL_BACKOFF_S

/-- `HetznerRobotClient._request` — the identical loop of the Robot
client. -/
def HetznerRobotClient.request (responses : Nat → HttpResponse) :
    Except ApiError HttpResponse × List ℚ :=
  request_with_retry responses MAX_RETRIES 0 INITIAL_BACKOFF_S

/-- C9: both clients share the same retry behavior; persistent throttling
is retried exactly 3 attempts, waiting the server hint when present and
otherwise a backoff of 1, 2, 4 seconds, and ends in the typed rate-limit
error rather than being swallowed; the first non-429 response with status
≥ 400 terminates the call with a typed error carrying that status and the
body truncated to 500 characters; and the first non-429 success is
returned. -/
theorem c9_retry_contract (responses : Nat → HttpResponse) :
    (HetznerRobotClient.request responses = HetznerCloudClient.request responses) ∧
    ((∀ i < 3, (responses i).status_code = 429) →
      HetznerCloudClient.request responses =
        (Except.error ⟨429, "Rate limit exceeded after max retries"⟩,
         [(responses 0).retry_after.getD 1, (responses 1).retry_after.getD 2,
          (responses 2).retry_after.getD 4])) ∧
    (∀ i < 3, (∀ j < i, (responses j).status_code = 429) →
      (responses i).status_code ≠ 429 → 400 ≤ (responses i).status_code →
      (HetznerCloudClient.request responses).1 =
        Except.error ⟨(responses i).status_code, str_take (responses i).text 500⟩) ∧
    (∀ i < 3, (∀ j < i, (responses j).status_code = 429) →
      (responses i).status_code ≠ 429 → (responses i).status_code < 400 →
      (HetznerCloudClient.request responses).1 = Except.ok (responses i)) := by
  refine ⟨rfl, ?_, ?_, ?_⟩
  · intro h
    have h0 := h 0 (by norm_num)
    have h1 := h 1 (by norm_num)
    have h2 := h 2 (by norm_num)
    show request_with_retry responses 3 0 1 = _
    norm_num [request_with_retry, h0, h1, h2]
  · intro i hi hprev hne hge
    interval_cases i
    · show (request_with_retry responses 3 0 1).1 = _
      norm_num [request_with_retry, hne, hge]
    · have h0 := hprev 0 (by norm_num)
      show (request_with_retry responses 3 0 1).1 = _
      norm_num [request_with_retry, h0, hne, hge]
    · have h0 := hprev 0 (by norm_num)
      have h1 := hprev 1 (by norm_num)
      show (request_with_retry responses 3 0 1).1 = _
      norm_num [request_with_retry, h0, h1, hne, hge]
  · intro i hi hprev hne hlt
    have h400 : ¬ 400 ≤ (responses i).status_code := not_le.2 hlt
    interval_cases i
    · show (request_with_retry responses 3 0 1).1 = _
      norm_num [request_with_retry, hne, h400]
    · have h0 := hprev 0 (by norm_num)
      show (request_with_retry responses 3 0 1).1 = _
      norm_num [request_with_retry, h0, hne, h400]
    · have h0 := hprev 0 (by norm_num)
      have h1 := hprev 1 (by norm_num)
      show (request_with_retry responses 3 0 1).1 = _
      norm_num [request_with_retry, h0, h1, hne, h400]

/-- Witness for C9: three straight unhinted 429s produce the typed
rate-limit error after waits of 1, 2 and 4 seconds. -/
theorem c9_retry_contract_witness :
    HetznerCloudClient.request (fun _ => ⟨429, none, ""⟩) =
      (Except.error ⟨429, "Rate limit exceeded after max retries"⟩, [1, 2, 4]) := by
  have h := (c9_retry_contract (fun _ => ⟨429, none, ""⟩)).2.1 (fun i _ => rfl)
  simpa using h
